import Mathlib

/-!
Verification of the gesture-hold / chakra-gating core of the
Real-Time Jutsu Recognition System.

The embedding below mirrors `src/modules/chakra_system.py` (class
`ChakraSystem`) and the gesture-hold logic of `src/main.py`
(`JutsuRecognitionApp.process_gesture` and the gesture fragment of
`JutsuRecognitionApp.run`).  Numeric values (chakra levels, timestamps)
are modelled as rationals; Python dictionaries with dynamic entries are
modelled as association lists with first-match lookup (matching Python
dict lookup after repeated assignment); the static cost/duration tables,
fixed at construction and never mutated, are modelled as total functions
returning `Option`.
-/

/-- Lookup in an association list, first match wins.  This is the
observable behaviour of a Python dict whose assignments are modelled by
consing the new binding in front. -/
def dictGet : List (String × ℚ) → String → Option ℚ
  | [], _ => none
  | (k, v) :: rest, name => if k = name then some v else dictGet rest name

/-- The static `self.jutsu_costs` table from `ChakraSystem.__init__`. -/
def jutsu_costs (name : String) : Option ℚ :=
  if name = "Fist" then some 30
  else if name = "Open Palm" then some 25
  else if name = "Peace Sign" then some 40
  else if name = "Thumbs Up" then some 20
  else if name = "Rock Sign" then some 35
  else if name = "Gun Sign" then some 30
  else if name = "Three Fingers" then some 25
  else if name = "Point" then some 15
  else none

/-- The static `self.cooldown_durations` table from `ChakraSystem.__init__`. -/
def cooldown_durations (name : String) : Option ℚ :=
  if name = "Fist" then some 2
  else if name = "Open Palm" then some 3
  else if name = "Peace Sign" then some 4
  else if name = "Thumbs Up" then some 2
  else if name = "Rock Sign" then some (7/2)
  else if name = "Gun Sign" then some (5/2)
  else if name = "Three Fingers" then some 2
  else if name = "Point" then some (3/2)
  else none

/-- Mutable state of `ChakraSystem`: maximum chakra, current chakra,
regeneration rate, and the dynamic cooldown dict `{jutsu_name: end_time}`. -/
structure ChakraSystem where
  max_chakra : ℚ
  current_chakra : ℚ
  regen_rate : ℚ
  cooldowns : List (String × ℚ)
  deriving DecidableEq

/-- `ChakraSystem.__init__(max_chakra, regen_rate)`: full chakra, empty
cooldown dict. -/
def ChakraSystem.init (max_chakra regen_rate : ℚ) : ChakraSystem :=
  { max_chakra := max_chakra
    current_chakra := max_chakra
    regen_rate := regen_rate
    cooldowns := [] }

/-- `ChakraSystem.can_use_jutsu`, with the call to `time.time()` made an
explicit parameter `now`: unknown jutsu fails, insufficient chakra fails,
an entry in `cooldowns` with `now < end_time` fails, otherwise succeeds. -/
def ChakraSystem.can_use_jutsu (s : ChakraSystem) (jutsu_name : String)
    (now : ℚ) : Bool :=
  match jutsu_costs jutsu_name with
  | none => false
  | some cost =>
    if s.current_chakra < cost then false
    else
      match dictGet s.cooldowns jutsu_name with
      | some endTime => if now < endTime then false else true
      | none => true

/-- `ChakraSystem.use_jutsu`: re-checks `can_use_jutsu`; on success
subtracts the cost from `current_chakra` and writes
`cooldowns[jutsu_name] = now + cooldown_durations.get(jutsu_name, 2.0)`.
Returns the success flag together with the updated state. -/
def ChakraSystem.use_jutsu (s : ChakraSystem) (jutsu_name : String)
    (now : ℚ) : Bool × ChakraSystem :=
  if s.can_use_jutsu jutsu_name now then
    match jutsu_costs jutsu_name with
    | some cost =>
      (true,
        { s with
          current_chakra := s.current_chakra - cost
          cooldowns :=
            (jutsu_name, now + (cooldown_durations jutsu_name).getD 2)
              :: s.cooldowns })
    | none => (false, s)
  else (false, s)

/-- `ChakraSystem.regenerate`: when below the maximum, set
`current_chakra = min(max_chakra, current_chakra + regen_rate)`. -/
def ChakraSystem.regenerate (s : ChakraSystem) : ChakraSystem :=
  if s.current_chakra < s.max_chakra then
    { s with current_chakra := min s.max_chakra (s.current_chakra + s.regen_rate) }
  else s

/-- `ChakraSystem.reset`: restore full chakra and clear the cooldown dict. -/
def ChakraSystem.reset (s : ChakraSystem) : ChakraSystem :=
  { s with current_chakra := s.max_chakra, cooldowns := [] }

/-- Python truthiness of the `Optional[float]` field `gesture_start_time`:
`None` and the float `0.0` are falsy, every other value is truthy.  This
models the guard `if self.gesture_start_time:` in
`JutsuRecognitionApp.process_gesture`. -/
def pyTruthyTime : Option ℚ → Bool
  | none => false
  | some t => t ≠ 0

/-- Python truthiness of the `Optional[str]` gesture result: `None` and
the empty string are falsy.  Models the guard `if gesture:` in
`JutsuRecognitionApp.run`. -/
def pyTruthyStr : Option String → Bool
  | none => false
  | some g => g ≠ ""

/-- The state of `JutsuRecognitionApp` relevant to gesture confirmation:
the chakra system plus `last_gesture`, `gesture_start_time` and the
constant `gesture_hold_duration` set in `__init__`. -/
structure AppState where
  chakra : ChakraSystem
  last_gesture : Option String
  gesture_start_time : Option ℚ
  gesture_hold_duration : ℚ
  deriving DecidableEq

/-- The gesture-relevant part of `JutsuRecognitionApp.__init__`:
`ChakraSystem(max_chakra=100, regen_rate=0.5)`, no gesture held, hold
duration 0.5 seconds. -/
def AppState.init : AppState :=
  { chakra := ChakraSystem.init 100 (1/2)
    last_gesture := none
    gesture_start_time := none
    gesture_hold_duration := 1/2 }

/-- `JutsuRecognitionApp.process_gesture`, with the two `time.time()`
calls of one invocation merged into the explicit parameter `now` (the
loop queries the clock within a single tick).  Returns the confirmed
gesture (`some g` exactly when the hold-threshold branch is entered,
matching the jutsu-activation attempt) together with the updated state.
The chakra transaction `can_use_jutsu` / `use_jutsu` is performed inside
the threshold branch exactly as in the source; the timer is cleared
afterwards regardless of its outcome. -/
def AppState.process_gesture (s : AppState) (gesture : Option String)
    (now : ℚ) : Option String × AppState :=
  match gesture with
  | none => (none, { s with last_gesture := none, gesture_start_time := none })
  | some g =>
    if g = "Unknown" then
      (none, { s with last_gesture := none, gesture_start_time := none })
    else if some g ≠ s.last_gesture then
      (none, { s with last_gesture := some g, gesture_start_time := some now })
    else if pyTruthyTime s.gesture_start_time then
      let hold_time := now - (s.gesture_start_time.getD 0)
      if s.gesture_hold_duration ≤ hold_time then
        let chakra2 :=
          if s.chakra.can_use_jutsu g now then (s.chakra.use_jutsu g now).2
          else s.chakra
        (some g, { s with chakra := chakra2, gesture_start_time := none })
      else (none, s)
    else (none, s)

/-- The gesture fragment of one non-paused iteration of
`JutsuRecognitionApp.run`: `process_gesture` is invoked only when the
frame's classification result is truthy (`if gesture:`), and
`ChakraSystem.regenerate` runs afterwards unconditionally. -/
def AppState.runTick (s : AppState) (gesture : Option String) (now : ℚ) :
    Option String × AppState :=
  let step := if pyTruthyStr gesture then s.process_gesture gesture now else (none, s)
  (step.1, { step.2 with chakra := step.2.chakra.regenerate })

/-- A state in which "Fist" has been held since time 1 (used as a
concrete input below). -/
def heldState : AppState :=
  { AppState.init with last_gesture := some "Fist", gesture_start_time := some 1 }

/-! ### Gesture-hold machinery -/

/-- Run `process_gesture` once per tick on a list of
(classification result, timestamp) pairs, collecting the per-tick
confirmation results. -/
def traceGesture : AppState → List (Option String × ℚ) → List (Option String)
  | _, [] => []
  | s, (g, t) :: rest =>
    (s.process_gesture g t).1 :: traceGesture (s.process_gesture g t).2 rest

/-- Run `process_gesture` with the same observed label `g` at each of the
given timestamps, returning the number of ticks that confirmed together
with the final state. -/
def runSame (g : String) : AppState → List ℚ → ℕ × AppState
  | s, [] => (0, s)
  | s, t :: ts =>
    ((if (s.process_gesture (some g) t).1.isSome then 1 else 0)
        + (runSame g (s.process_gesture (some g) t).2 ts).1,
     (runSame g (s.process_gesture (some g) t).2 ts).2)


/-! ### Operation sequences over the chakra system -/

/-- One operation on the chakra system, as invoked by the application:
an activation attempt (`use_jutsu`), a regeneration tick, or a reset. -/
inductive ChakraOp where
  | tryActivate : String → ℚ → ChakraOp
  | regen : ChakraOp
  | reset : ChakraOp

/-- Apply one operation to a chakra state. -/
def ChakraOp.apply : ChakraOp → ChakraSystem → ChakraSystem
  | .tryActivate name t, s => (s.use_jutsu name t).2
  | .regen, s => s.regenerate
  | .reset, s => s.reset

/-- Run a sequence of operations from a starting state. -/
def runOps (s : ChakraSystem) (ops : List ChakraOp) : ChakraSystem :=
  ops.foldl (fun acc op => op.apply acc) s

/-- The bounded-level invariant together with the ambient constraints it
needs (`regen_rate ≥ 0`, which no operation modifies). -/
def ChakraInv (s : ChakraSystem) : Prop :=
  0 ≤ s.current_chakra ∧ s.current_chakra ≤ s.max_chakra ∧ 0 ≤ s.regen_rate


/-! ### Helper lemmas about the chakra system -/

/-- Every jutsu with a registered cost also has a registered cooldown
duration (the two static tables have the same keys). -/
theorem costs_have_durations (name : String) (c : ℚ)
    (h : jutsu_costs name = some c) :
    ∃ d, cooldown_durations name = some d := by
  unfold jutsu_costs at h
  unfold cooldown_durations
  split_ifs at h <;> simp_all

/-- Every registered jutsu cost is non-negative. -/
theorem costs_nonneg (name : String) (c : ℚ)
    (h : jutsu_costs name = some c) : 0 ≤ c := by
  unfold jutsu_costs at h
  split_ifs at h <;> simp_all <;> subst h <;> norm_num

/-- `can_use_jutsu` succeeds exactly when the jutsu has a registered
cost, the cost is affordable, and any recorded cooldown end is at most
`now`. -/
theorem can_use_jutsu_iff (s : ChakraSystem) (name : String) (now : ℚ) :
    s.can_use_jutsu name now = true ↔
      ∃ c, jutsu_costs name = some c ∧ c ≤ s.current_chakra ∧
        (dictGet s.cooldowns name).getD now ≤ now := by
  unfold ChakraSystem.can_use_jutsu
  rcases h : jutsu_costs name with _ | c
  · simp
  · rcases h2 : dictGet s.cooldowns name with _ | e
    · simp only [h2, Option.getD_none]
      constructor
      · intro hif
        refine ⟨c, rfl, ?_, le_refl now⟩
        by_contra hlt
        simp [lt_of_not_le hlt] at hif
      · rintro ⟨c', hc', hle, -⟩
        rw [Option.some_inj] at hc'
        subst hc'
        simp [not_lt_of_le hle]
    · simp only [h2, Option.getD_some]
      constructor
      · intro hif
        split_ifs at hif with h3 h4
        exact ⟨c, rfl, not_lt.mp h3, not_lt.mp h4⟩
      · rintro ⟨c', hc', hle, hcd⟩
        rw [Option.some_inj] at hc'
        subst hc'
        simp [not_lt_of_le hle, not_lt_of_le hcd]

/-- `use_jutsu` succeeds exactly when `can_use_jutsu` does. -/
theorem use_jutsu_fst_iff (s : ChakraSystem) (name : String) (now : ℚ) :
    (s.use_jutsu name now).1 = true ↔ s.can_use_jutsu name now = true := by
  unfold ChakraSystem.use_jutsu
  by_cases hc : s.can_use_jutsu name now = true
  · rcases h : jutsu_costs name with _ | c
    · rw [ChakraSystem.can_use_jutsu, h] at hc
      simp at hc
    · simp [hc, h]
  · simp only [Bool.not_eq_true] at hc
    simp [hc]

/-- When `can_use_jutsu` fails, `use_jutsu` returns `false` and leaves
the state untouched. -/
theorem use_jutsu_noop (s : ChakraSystem) (name : String) (now : ℚ)
    (h : s.can_use_jutsu name now = false) :
    s.use_jutsu name now = (false, s) := by
  unfold ChakraSystem.use_jutsu
  simp [h]

/-- Effects of a successful `use_jutsu`: the cost is subtracted and the
cooldown end is recorded as `now + duration`. -/
theorem use_jutsu_success_effects (s : ChakraSystem) (name : String) (now : ℚ)
    (h : (s.use_jutsu name now).1 = true) :
    ∃ c d, jutsu_costs name = some c ∧ cooldown_durations name = some d ∧
      (s.use_jutsu name now).2.current_chakra = s.current_chakra - c ∧
      dictGet (s.use_jutsu name now).2.cooldowns name = some (now + d) := by
  have hc : s.can_use_jutsu name now = true := (use_jutsu_fst_iff s name now).mp h
  obtain ⟨c, hcost, -, -⟩ := (can_use_jutsu_iff s name now).mp hc
  obtain ⟨d, hdur⟩ := costs_have_durations name c hcost
  refine ⟨c, d, hcost, hdur, ?_, ?_⟩ <;>
    simp [ChakraSystem.use_jutsu, hc, hcost, hdur, dictGet]

theorem use_jutsu_preserves_inv (s : ChakraSystem) (name : String) (t : ℚ)
    (h : ChakraInv s) : ChakraInv (s.use_jutsu name t).2 := by
  obtain ⟨h1, h2, h3⟩ := h
  by_cases hc : s.can_use_jutsu name t = true
  · obtain ⟨c, hcost, hle, -⟩ := (can_use_jutsu_iff s name t).mp hc
    have h0 := costs_nonneg name c hcost
    have hcur : (s.use_jutsu name t).2.current_chakra = s.current_chakra - c := by
      simp [ChakraSystem.use_jutsu, hc, hcost]
    have hmax : (s.use_jutsu name t).2.max_chakra = s.max_chakra := by
      simp [ChakraSystem.use_jutsu, hc, hcost]
    have hreg : (s.use_jutsu name t).2.regen_rate = s.regen_rate := by
      simp [ChakraSystem.use_jutsu, hc, hcost]
    exact ⟨by rw [hcur]; linarith, by rw [hcur, hmax]; linarith, by rw [hreg]; linarith⟩
  · rw [use_jutsu_noop s name t (by simpa using hc)]
    exact ⟨h1, h2, h3⟩

theorem regenerate_preserves_inv (s : ChakraSystem)
    (h : ChakraInv s) : ChakraInv s.regenerate := by
  obtain ⟨h1, h2, h3⟩ := h
  unfold ChakraSystem.regenerate
  split_ifs with hlt
  · exact ⟨le_min (by linarith) (by linarith), min_le_left _ _, h3⟩
  · exact ⟨h1, h2, h3⟩

theorem reset_preserves_inv (s : ChakraSystem)
    (h : ChakraInv s) : ChakraInv s.reset := by
  obtain ⟨h1, h2, h3⟩ := h
  refine ⟨?_, ?_, ?_⟩ <;> simp [ChakraSystem.reset] <;> linarith

theorem op_apply_preserves_inv (op : ChakraOp) (s : ChakraSystem)
    (h : ChakraInv s) : ChakraInv (op.apply s) := by
  cases op with
  | tryActivate name t => exact use_jutsu_preserves_inv s name t h
  | regen => exact regenerate_preserves_inv s h
  | reset => exact reset_preserves_inv s h

theorem runOps_preserves_inv (ops : List ChakraOp) :
    ∀ s : ChakraSystem, ChakraInv s → ChakraInv (runOps s ops) := by
  induction ops with
  | nil => intro s h; exact h
  | cons op rest ih =>
    intro s h
    exact ih (op.apply s) (op_apply_preserves_inv op s h)

theorem op_apply_max (op : ChakraOp) (s : ChakraSystem) :
    (op.apply s).max_chakra = s.max_chakra := by
  cases op with
  | tryActivate name t =>
    show ((s.use_jutsu name t).2).max_chakra = s.max_chakra
    unfold ChakraSystem.use_jutsu
    split_ifs with h
    · rcases hc : jutsu_costs name with _ | c <;> simp [hc]
    · rfl
  | regen =>
    show (s.regenerate).max_chakra = s.max_chakra
    unfold ChakraSystem.regenerate
    split_ifs <;> rfl
  | reset => rfl

theorem runOps_max (ops : List ChakraOp) :
    ∀ s : ChakraSystem, (runOps s ops).max_chakra = s.max_chakra := by
  induction ops with
  | nil => intro s; rfl
  | cons op rest ih =>
    intro s
    rw [runOps, List.foldl_cons, ← runOps, ih, op_apply_max]

/-! ### Claim theorems for the chakra system -/

/-- Claim C1: `use_jutsu(a, t)` returns true iff `a` has a registered
cost, `current_chakra ≥ costs[a]`, and the recorded cooldown end (or `t`
when absent) is at most `t`; and whenever it returns true the chakra
level decreases by exactly `costs[a]` and the cooldown end for `a`
becomes exactly `t + cooldown_durations[a]`. -/
theorem use_jutsu_success_iff_and_effects (s : ChakraSystem) (name : String)
    (t : ℚ) :
    ((s.use_jutsu name t).1 = true ↔
      ∃ c, jutsu_costs name = some c ∧ c ≤ s.current_chakra ∧
        (dictGet s.cooldowns name).getD t ≤ t)
    ∧ ((s.use_jutsu name t).1 = true →
        ∃ c d, jutsu_costs name = some c ∧ cooldown_durations name = some d ∧
          (s.use_jutsu name t).2.current_chakra = s.current_chakra - c ∧
          dictGet (s.use_jutsu name t).2.cooldowns name = some (t + d)) :=
  ⟨(use_jutsu_fst_iff s name t).trans (can_use_jutsu_iff s name t),
   use_jutsu_success_effects s name t⟩

/-- Witness for C1: from the freshly initialised system, using "Fist"
at time 0 succeeds, consumes 30 chakra, and sets the cooldown end to 2. -/
theorem use_jutsu_success_iff_and_effects_witness :
    ((ChakraSystem.init 100 (1/2)).use_jutsu "Fist" 0).1 = true ∧
    ∃ c d, jutsu_costs "Fist" = some c ∧ cooldown_durations "Fist" = some d ∧
      ((ChakraSystem.init 100 (1/2)).use_jutsu "Fist" 0).2.current_chakra
        = (ChakraSystem.init 100 (1/2)).current_chakra - c ∧
      dictGet ((ChakraSystem.init 100 (1/2)).use_jutsu "Fist" 0).2.cooldowns
        "Fist" = some (0 + d) := by
  have h1 : ((ChakraSystem.init 100 (1/2)).use_jutsu "Fist" 0).1 = true := by
    rw [use_jutsu_fst_iff, can_use_jutsu_iff]
    refine ⟨30, by simp [jutsu_costs], ?_, ?_⟩
    · norm_num [ChakraSystem.init]
    · simp [ChakraSystem.init, dictGet]
  exact ⟨h1,
    (use_jutsu_success_iff_and_effects (ChakraSystem.init 100 (1/2)) "Fist" 0).2 h1⟩

/-- Claim C2: when the activation is not eligible (no registered cost,
insufficient chakra, or an active cooldown), `use_jutsu` returns false
and leaves the state completely unchanged; the static cost and duration
tables are top-level constants and cannot change. -/
theorem use_jutsu_ineligible_noop (s : ChakraSystem) (name : String) (t : ℚ)
    (h : ¬ ∃ c, jutsu_costs name = some c ∧ c ≤ s.current_chakra ∧
        (dictGet s.cooldowns name).getD t ≤ t) :
    s.use_jutsu name t = (false, s) := by
  have hc : s.can_use_jutsu name t = false := by
    by_contra hne
    exact h ((can_use_jutsu_iff s name t).mp (by simpa using hne))
  exact use_jutsu_noop s name t hc

/-- Witness for C2: an unknown action id ("Dragon Sign" has no registered
cost) returns false from the fresh system with no state change. -/
theorem use_jutsu_ineligible_noop_witness :
    (ChakraSystem.init 100 (1/2)).use_jutsu "Dragon Sign" 0
      = (false, ChakraSystem.init 100 (1/2)) := by
  refine use_jutsu_ineligible_noop (ChakraSystem.init 100 (1/2)) "Dragon Sign" 0 ?_
  rintro ⟨c, hc, -, -⟩
  simp [jutsu_costs] at hc

/-- Claim C3: starting from `ChakraSystem(capacity, regen)` with
`capacity > 0` and `regen ≥ 0` (and the registered costs all
non-negative, see `costs_nonneg`), every sequence of `use_jutsu`,
`regenerate` and `reset` operations keeps the chakra level within
`[0, capacity]`. -/
theorem chakra_level_bounded (cap regen : ℚ) (ops : List ChakraOp)
    (hcap : 0 < cap) (hregen : 0 ≤ regen) :
    0 ≤ (runOps (ChakraSystem.init cap regen) ops).current_chakra ∧
    (runOps (ChakraSystem.init cap regen) ops).current_chakra ≤ cap := by
  have hinv : ChakraInv (runOps (ChakraSystem.init cap regen) ops) :=
    runOps_preserves_inv ops (ChakraSystem.init cap regen)
      ⟨le_of_lt hcap, le_refl _, hregen⟩
  have hmax : (runOps (ChakraSystem.init cap regen) ops).max_chakra = cap :=
    runOps_max ops (ChakraSystem.init cap regen)
  exact ⟨hinv.1, le_of_le_of_eq hinv.2.1 hmax⟩

/-- Witness for C3: a concrete sequence (spend, regenerate, spend, reset)
from the application's construction parameters stays within bounds. -/
theorem chakra_level_bounded_witness :
    0 ≤ (runOps (ChakraSystem.init 100 (1/2))
          [ChakraOp.tryActivate "Fist" 0, ChakraOp.regen,
           ChakraOp.tryActivate "Peace Sign" 1, ChakraOp.reset]).current_chakra ∧
    (runOps (ChakraSystem.init 100 (1/2))
          [ChakraOp.tryActivate "Fist" 0, ChakraOp.regen,
           ChakraOp.tryActivate "Peace Sign" 1, ChakraOp.reset]).current_chakra
      ≤ 100 :=
  chakra_level_bounded 100 (1/2) _ (by norm_num) (by norm_num)

/-- Claim C4: for every state with `current_chakra ≤ max_chakra` and
`regen_rate ≥ 0`, `regenerate` sets the level to
`min(max_chakra, current_chakra + regen_rate)`, never exceeds the
maximum, never decreases the level, and is the identity when the level
is already at the maximum. -/
theorem regenerate_spec (s : ChakraSystem)
    (h1 : s.current_chakra ≤ s.max_chakra) (h2 : 0 ≤ s.regen_rate) :
    s.regenerate.current_chakra
        = min s.max_chakra (s.current_chakra + s.regen_rate) ∧
    s.regenerate.current_chakra ≤ s.max_chakra ∧
    s.current_chakra ≤ s.regenerate.current_chakra ∧
    (s.current_chakra = s.max_chakra → s.regenerate = s) := by
  unfold ChakraSystem.regenerate
  split_ifs with hlt
  · refine ⟨by simp, by simp, ?_, ?_⟩
    · simp only []
      exact le_min (le_of_lt hlt) (by linarith)
    · intro heq
      exact absurd heq (ne_of_lt hlt)
  · have heq : s.current_chakra = s.max_chakra := le_antisymm h1 (not_lt.mp hlt)
    refine ⟨?_, h1, le_refl _, fun _ => rfl⟩
    rw [heq, min_eq_left (by linarith)]

/-- Witness for C4: a concrete half-full state regenerates to
`min(100, 50 + 1) = 51`. -/
theorem regenerate_spec_witness :
    (ChakraSystem.mk 100 50 1 []).regenerate.current_chakra
        = min (100:ℚ) (50 + 1) ∧
    (ChakraSystem.mk 100 50 1 []).regenerate.current_chakra ≤ 100 ∧
    (50:ℚ) ≤ (ChakraSystem.mk 100 50 1 []).regenerate.current_chakra ∧
    ((50:ℚ) = 100 → (ChakraSystem.mk 100 50 1 []).regenerate
        = ChakraSystem.mk 100 50 1 []) :=
  regenerate_spec (ChakraSystem.mk 100 50 1 []) (by norm_num) (by norm_num)

/-- Branch 1 of `process_gesture`: an absent or "Unknown" observation
clears the hold state and confirms nothing. -/
theorem process_gesture_reset (s : AppState) (gesture : Option String) (t : ℚ)
    (h : gesture = none ∨ gesture = some "Unknown") :
    s.process_gesture gesture t
      = (none, { s with last_gesture := none, gesture_start_time := none }) := by
  rcases h with h | h <;> subst h <;> simp [AppState.process_gesture]

/-- Branch 2 of `process_gesture`: a recognised label different from the
held one restarts the hold and confirms nothing. -/
theorem process_gesture_new_label (s : AppState) (g : String) (t : ℚ)
    (hg : g ≠ "Unknown") (hne : some g ≠ s.last_gesture) :
    s.process_gesture (some g) t
      = (none, { s with last_gesture := some g, gesture_start_time := some t }) := by
  simp [AppState.process_gesture, hg, hne]

/-- Branch 3 with a falsy timer (`None`, or the float `0.0`): the call is
a complete no-op. -/
theorem process_gesture_held_noop (s : AppState) (g : String) (t : ℚ)
    (hg : g ≠ "Unknown") (hlast : s.last_gesture = some g)
    (hstart : pyTruthyTime s.gesture_start_time = false) :
    s.process_gesture (some g) t = (none, s) := by
  simp [AppState.process_gesture, hg, hlast, hstart]

/-- Branch 3 below the threshold: the call is a complete no-op. -/
theorem process_gesture_below_threshold (s : AppState) (g : String) (t : ℚ)
    (hg : g ≠ "Unknown") (hlast : s.last_gesture = some g)
    (hstart : pyTruthyTime s.gesture_start_time = true)
    (hshort : ¬ s.gesture_hold_duration ≤ t - s.gesture_start_time.getD 0) :
    s.process_gesture (some g) t = (none, s) := by
  simp [AppState.process_gesture, hg, hlast, hstart, hshort]

/-- Anatomy of a confirming call: the confirmed label is the observed
one, which was already held, and afterwards the timer is cleared while
`last_gesture` keeps the confirmed label (for every chakra sub-state). -/
theorem process_gesture_confirm (s : AppState) (g : String) (t : ℚ)
    (x : String) (h : (s.process_gesture (some g) t).1 = some x) :
    x = g ∧ s.last_gesture = some g ∧
    (s.process_gesture (some g) t).2.last_gesture = some g ∧
    (s.process_gesture (some g) t).2.gesture_start_time = none := by
  by_cases hg : g = "Unknown"
  · rw [process_gesture_reset s (some g) t (Or.inr (by rw [hg]))] at h
    simp at h
  by_cases hne : some g ≠ s.last_gesture
  · rw [process_gesture_new_label s g t hg hne] at h
    simp at h
  push_neg at hne
  by_cases hstart : pyTruthyTime s.gesture_start_time = true
  · by_cases hdur : s.gesture_hold_duration ≤ t - s.gesture_start_time.getD 0
    · have hproc : s.process_gesture (some g) t
          = (some g,
             { s with
               chakra :=
                 if s.chakra.can_use_jutsu g t then (s.chakra.use_jutsu g t).2
                 else s.chakra
               gesture_start_time := none }) := by
        simp [AppState.process_gesture, hg, ← hne, hstart, hdur]
      rw [hproc] at h ⊢
      simp only [Option.some.injEq] at h
      exact ⟨h.symm, hne.symm, by simp [← hne], rfl⟩
    · rw [process_gesture_below_threshold s g t hg hne.symm hstart hdur] at h
      simp at h
  · rw [process_gesture_held_noop s g t hg hne.symm
        (by simpa using hstart)] at h
    simp at h

/-- After any single call, a set hold timer implies a held label. -/
theorem process_gesture_start_imp_label (s : AppState)
    (gesture : Option String) (t : ℚ)
    (h : (s.process_gesture gesture t).2.gesture_start_time.isSome = true) :
    (s.process_gesture gesture t).2.last_gesture.isSome = true := by
  rcases gesture with _ | g
  · rw [process_gesture_reset s none t (Or.inl rfl)] at h
    simp at h
  by_cases hg : g = "Unknown"
  · rw [process_gesture_reset s (some g) t (Or.inr (by rw [hg]))] at h
    simp at h
  by_cases hne : some g ≠ s.last_gesture
  · rw [process_gesture_new_label s g t hg hne]
    simp
  push_neg at hne
  by_cases hstart : pyTruthyTime s.gesture_start_time = true
  · by_cases hdur : s.gesture_hold_duration ≤ t - s.gesture_start_time.getD 0
    · have hproc : s.process_gesture (some g) t
          = (some g,
             { s with
               chakra :=
                 if s.chakra.can_use_jutsu g t then (s.chakra.use_jutsu g t).2
                 else s.chakra
               gesture_start_time := none }) := by
        simp [AppState.process_gesture, hg, ← hne, hstart, hdur]
      rw [hproc] at h
      simp at h
    · rw [process_gesture_below_threshold s g t hg hne.symm hstart hdur]
      simp [← hne]
  · rw [process_gesture_held_noop s g t hg hne.symm (by simpa using hstart)]
    simp [← hne]

/-- From a post-confirmation-shaped state (label still held, timer
cleared), observing the same label again is a complete no-op. -/
theorem runSame_stuck (g : String) (hg : g ≠ "Unknown") (ts : List ℚ) :
    ∀ s : AppState, s.last_gesture = some g → s.gesture_start_time = none →
      runSame g s ts = (0, s) := by
  induction ts with
  | nil => intro s _ _; rfl
  | cons t ts ih =>
    intro s h1 h2
    have hstep : s.process_gesture (some g) t = (none, s) :=
      process_gesture_held_noop s g t hg h1 (by simp [h2, pyTruthyTime])
    simp [runSame, hstep, ih s h1 h2]

/-- Claim C5 (evaluating the code at the claimed scenario): with the
constructed hold threshold 0.5, the call sequence
`update("Fist", 0.0)`, `update("Fist", 0.3)`, `update("Fist", 0.5)`,
`update("Fist", 0.5)` returns none on every call — the third call does
NOT confirm, because the hold start timestamp 0.0 stored by the first
call is falsy for the guard `if self.gesture_start_time:`, so the
threshold check is skipped. -/
theorem hold_scenario_started_at_zero_never_confirms :
    traceGesture AppState.init
      [(some "Fist", 0), (some "Fist", 3/10), (some "Fist", 1/2),
       (some "Fist", 1/2)]
      = [none, none, none, none] := by
  simp [traceGesture, AppState.process_gesture, AppState.init,
    ChakraSystem.init, pyTruthyTime]

/-- The same scenario shifted to a non-zero hold start (start at 1.0):
the code then confirms exactly on the first tick past the threshold, as
the spec intends. -/
theorem hold_scenario_started_at_one :
    traceGesture AppState.init
      [(some "Fist", 1), (some "Fist", 13/10), (some "Fist", 3/2),
       (some "Fist", 3/2)]
      = [none, none, some "Fist", none] := by
  simp [traceGesture, AppState.process_gesture, AppState.init,
    ChakraSystem.init, pyTruthyTime, ChakraSystem.can_use_jutsu,
    ChakraSystem.use_jutsu, jutsu_costs, cooldown_durations, dictGet]
  norm_num

/-- Counterexample to claim C6 as stated: from a held state, the
confirming call leaves `last_gesture = some "Fist"` while clearing
`gesture_start_time`, so "holdStartedAt is set iff heldLabel is not
none" fails, and the two fields are not both none after confirmation. -/
theorem hold_state_iff_counterexample :
    (heldState.process_gesture (some "Fist") 2).1 = some "Fist" ∧
    (heldState.process_gesture (some "Fist") 2).2.gesture_start_time = none ∧
    (heldState.process_gesture (some "Fist") 2).2.last_gesture = some "Fist" ∧
    ¬ ((heldState.process_gesture (some "Fist") 2).2.gesture_start_time.isSome
        ↔ (heldState.process_gesture (some "Fist") 2).2.last_gesture.isSome) := by
  refine ⟨?_, ?_, ?_, ?_⟩ <;>
    simp [heldState, AppState.init, AppState.process_gesture, pyTruthyTime,
      ChakraSystem.can_use_jutsu, ChakraSystem.use_jutsu, ChakraSystem.init,
      jutsu_costs, cooldown_durations, dictGet] <;> norm_num

/-- Claim C6 (amended): after every call, `gesture_start_time` set
implies `last_gesture` set (the converse fails); immediately after a
confirming call, `gesture_start_time` is none while `last_gesture` still
holds the confirmed label. -/
theorem hold_state_invariant (s : AppState) (gesture : Option String)
    (t : ℚ) :
    ((s.process_gesture gesture t).2.gesture_start_time.isSome = true →
      (s.process_gesture gesture t).2.last_gesture.isSome = true)
    ∧ (∀ x, (s.process_gesture gesture t).1 = some x →
        (s.process_gesture gesture t).2.gesture_start_time = none ∧
        (s.process_gesture gesture t).2.last_gesture = some x) := by
  constructor
  · exact process_gesture_start_imp_label s gesture t
  · intro x h
    rcases gesture with _ | g
    · rw [process_gesture_reset s none t (Or.inl rfl)] at h
      simp at h
    · obtain ⟨hx, -, hlast, hstart⟩ := process_gesture_confirm s g t x h
      exact ⟨hstart, by rw [hx]; exact hlast⟩

/-- Witness for C6 (amended): the confirming call from `heldState`
clears the timer and keeps the label. -/
theorem hold_state_invariant_witness :
    (heldState.process_gesture (some "Fist") 2).2.gesture_start_time = none ∧
    (heldState.process_gesture (some "Fist") 2).2.last_gesture = some "Fist" :=
  (hold_state_invariant heldState (some "Fist") 2).2 "Fist" (by
    simp [heldState, AppState.init, AppState.process_gesture, pyTruthyTime]
    norm_num)

/-- Claim C7: observing a recognised label different from the held one
never confirms and restarts the hold at the current timestamp. -/
theorem new_label_restarts_hold (s : AppState) (g : String) (t : ℚ)
    (hg : g ≠ "Unknown") (hne : some g ≠ s.last_gesture) :
    s.process_gesture (some g) t
      = (none, { s with last_gesture := some g, gesture_start_time := some t }) :=
  process_gesture_new_label s g t hg hne

/-- Witness for C7: the first "Fist" observation from the initial state
starts a hold at time 1. -/
theorem new_label_restarts_hold_witness :
    AppState.init.process_gesture (some "Fist") 1
      = (none, { AppState.init with
                   last_gesture := some "Fist", gesture_start_time := some 1 }) :=
  new_label_restarts_hold AppState.init "Fist" 1 (by simp)
    (by simp [AppState.init])

/-- Counterexample to claim C8 as stated: on a tick whose classification
result is none (no hand detected), `process_gesture` is never invoked
(`if gesture:` in the run loop), so an in-progress hold survives
unchanged instead of being reset to Idle. -/
theorem none_frame_keeps_hold_counterexample :
    (AppState.runTick heldState none 2).2.last_gesture = some "Fist" ∧
    (AppState.runTick heldState none 2).2.gesture_start_time = some 1 := by
  constructor <;> simp [AppState.runTick, pyTruthyStr, heldState, AppState.init]

/-- Claim C8 (amended): the run loop invokes the confirmer only on ticks
with a truthy classification result.  An "Unknown" result resets the
hold state to Idle on that tick with no confirmation; a none result
skips `process_gesture` entirely, leaving the hold state unchanged, so
an in-progress hold survives a no-detection frame. -/
theorem tick_gesture_handling (s : AppState) (t : ℚ) :
    ((AppState.runTick s (some "Unknown") t).1 = none ∧
     (AppState.runTick s (some "Unknown") t).2.last_gesture = none ∧
     (AppState.runTick s (some "Unknown") t).2.gesture_start_time = none)
    ∧ ((AppState.runTick s none t).1 = none ∧
       (AppState.runTick s none t).2.last_gesture = s.last_gesture ∧
       (AppState.runTick s none t).2.gesture_start_time
          = s.gesture_start_time) := by
  constructor
  · have h := process_gesture_reset s (some "Unknown") t (Or.inr rfl)
    simp [AppState.runTick, pyTruthyStr, h]
  · simp [AppState.runTick, pyTruthyStr]

/-- Claim C9: with the same recognised label observed on every tick, at
most one tick of the sequence confirms, from any starting state. -/
theorem same_label_confirms_at_most_once (s : AppState) (g : String)
    (ts : List ℚ) (hg : g ≠ "Unknown") :
    (runSame g s ts).1 ≤ 1 := by
  induction ts generalizing s with
  | nil => simp [runSame]
  | cons t ts ih =>
    rcases hr : (s.process_gesture (some g) t).1 with _ | x
    · simpa [runSame, hr] using ih (s.process_gesture (some g) t).2
    · obtain ⟨hx, hlast, hlast', hstart'⟩ := process_gesture_confirm s g t x hr
      have hrest :=
        runSame_stuck g hg ts (s.process_gesture (some g) t).2 hlast' hstart'
      simp [runSame, hr, hrest]

/-- Witness for C9: five consecutive "Fist" ticks from the initial state
confirm at most once. -/
theorem same_label_confirms_at_most_once_witness :
    (runSame "Fist" AppState.init [1, 13/10, 3/2, 3/2, 2]).1 ≤ 1 :=
  same_label_confirms_at_most_once AppState.init "Fist" [1, 13/10, 3/2, 3/2, 2]
    (by simp)

/-- Claim C10: a confirming call clears the timer while keeping the
confirmed label, for every chakra sub-state (i.e. whether or not the
chakra transaction succeeded); and from that latched state every further
call with the same label confirms nothing and changes nothing. -/
theorem post_confirmation_latch (s : AppState) (g : String) (t : ℚ)
    (hg : g ≠ "Unknown") :
    (∀ x, (s.process_gesture (some g) t).1 = some x →
      (s.process_gesture (some g) t).2.last_gesture = some g ∧
      (s.process_gesture (some g) t).2.gesture_start_time = none)
    ∧ (∀ t', s.last_gesture = some g → s.gesture_start_time = none →
        s.process_gesture (some g) t' = (none, s)) := by
  constructor
  · intro x h
    obtain ⟨-, -, hlast, hstart⟩ := process_gesture_confirm s g t x h
    exact ⟨hlast, hstart⟩
  · intro t' h1 h2
    exact process_gesture_held_noop s g t' hg h1 (by simp [h2, pyTruthyTime])

/-- Witness for C10: from the latched state (label held, timer cleared)
a further "Fist" call at time 5 is a complete no-op. -/
theorem post_confirmation_latch_witness :
    ({ AppState.init with last_gesture := some "Fist" } : AppState).process_gesture
        (some "Fist") 5
      = (none, { AppState.init with last_gesture := some "Fist" }) :=
  (post_confirmation_latch { AppState.init with last_gesture := some "Fist" }
      "Fist" 0 (by simp)).2 5 rfl rfl
